import Mathlib

/-!
Verification development for the BrickCommander brick-controller:
a shallow embedding of the brick state model, the controller transition
handlers, the command construction, the persisted-store loading and the
inbound status handling, with theorems settling the specified properties.

Python is dynamically typed, so fields that the code moves around without
inspecting (port, controller) are modelled by a sum of the values the
program actually stores in them.
-/

namespace BrickCommander

/-- A dynamically typed Python value as stored in the opaque fields. -/
inductive PyVal where
  | int (n : Int)
  | str (s : String)
  deriving DecidableEq, Repr

/-- brick_state.py: BrickState fields name, mac, port, controller,
power, direction, running, connected. -/
structure BrickState where
  name : String
  mac : String
  port : PyVal
  controller : PyVal
  power : Int
  direction : String
  running : Bool
  connected : Bool
  deriving DecidableEq, Repr

/-- The outbound command payload built by Controller.send_command. -/
structure Cmd where
  controller : PyVal
  mac : String
  port : PyVal
  power : Int
  direction : String
  disconnect : Bool
  deriving DecidableEq, Repr

/-- controller.py lines 299-311: send_command builds the command dict
verbatim from the active brick and the disconnect argument. -/
def send_command (b : BrickState) (disconnect : Bool) : Cmd :=
  { controller := b.controller
    mac := b.mac
    port := b.port
    power := b.power
    direction := b.direction
    disconnect := disconnect }

/-- controller.py lines 210-214: on_slider_moved stores the slider value
into the active brick power, with no clamping and no connected check;
it dispatches nothing. -/
def on_slider_moved (v : Int) (s : BrickState) : BrickState × Option Cmd :=
  ({ s with power := v }, none)

/-- controller.py lines 216-221: on_slider_released sets running to
power > 0 and dispatches the current state. No connected check. -/
def on_slider_released (s : BrickState) : BrickState × Option Cmd :=
  let s1 := { s with running := decide (s.power > 0) }
  (s1, some (send_command s1 false))

/-- controller.py lines 223-228: set_direction stores the direction and
dispatches. No connected check. -/
def set_direction (d : String) (s : BrickState) : BrickState × Option Cmd :=
  let s1 := { s with direction := d }
  (s1, some (send_command s1 false))

/-- controller.py lines 230-243: connect_brick forces running false,
power 0, connected true, then dispatches with disconnect False. -/
def connect_brick (s : BrickState) : BrickState × Option Cmd :=
  let s1 := { s with running := false, power := 0, connected := true }
  (s1, some (send_command s1 false))

/-- controller.py lines 245-258: disconnect_brick forces running false,
power 0, connected false, then dispatches with disconnect True. -/
def disconnect_brick (s : BrickState) : BrickState × Option Cmd :=
  let s1 := { s with running := false, power := 0, connected := false }
  (s1, some (send_command s1 true))

/-- controller.py lines 270-278: stop forces running false and power 0
and dispatches. No connected check. -/
def stop (s : BrickState) : BrickState × Option Cmd :=
  let s1 := { s with running := false, power := 0 }
  (s1, some (send_command s1 false))

/-- controller.py line 109: the slider widget is configured with range
[0, 100]; the widget bounds every value set on it into that range before
emitting valueChanged. -/
def sliderClamp (v : Int) : Int := max 0 (min 100 v)

/-- The wiring slider.valueChanged -> on_slider_moved together with the
widget clamping of line 109: moving the slider to v stores the clamped
value into the brick. -/
def slider_set_value (v : Int) (s : BrickState) : BrickState :=
  (on_slider_moved (sliderClamp v) s).1

/-- The specified state invariant: a disconnected brick has power 0 and
is not running. -/
@[reducible] def stateInv (s : BrickState) : Prop :=
  s.connected = false → s.power = 0 ∧ s.running = false

/-- controller.py lines 318-325: add_brick appends the dialog result,
with connected forced to false, to the brick list. There is no check
against the existing names. -/
def add_brick (bricks : List BrickState) (new_brick : BrickState) :
    List BrickState :=
  bricks ++ [{ new_brick with connected := false }]

/-- controller.py lines 189-196: refresh_brick_list walks the brick list
and sets connected to false on every brick. -/
def refresh_brick_list (bricks : List BrickState) : List BrickState :=
  bricks.map fun b => { b with connected := false }

/-- A persisted device entry as a JSON object: each field either present
with a value or absent. -/
structure EntryDict where
  name : Option String
  mac : Option String
  port : Option PyVal
  controller : Option PyVal
  power : Option Int
  direction : Option String
  running : Option Bool
  connected : Option Bool
  deriving DecidableEq, Repr

/-- brick_state.py lines 57-71: BrickState.from_dict reads the required
fields name, mac, port, controller with a plain index (a missing one is a
KeyError, modelled as none) and the runtime fields with dict.get and the
defaults 0, forward, False, False. -/
def BrickState.from_dict (d : EntryDict) : Option BrickState :=
  match d.name, d.mac, d.port, d.controller with
  | some n, some m, some p, some c =>
      some { name := n
             mac := m
             port := p
             controller := c
             power := d.power.getD 0
             direction := d.direction.getD "forward"
             running := d.running.getD false
             connected := d.connected.getD false }
  | _, _, _, _ => none

/-- The possible outcomes of opening and parsing the config file in
brick_config.py: the file is missing (FileNotFoundError), json.load
fails, the top-level value is not a list of objects, or it is a list of
entry objects. -/
inductive FileContent where
  | missing
  | invalidJson
  | nonList
  | list (entries : List EntryDict)
  deriving DecidableEq, Repr

/-- brick_config.py lines 14-36: load_bricks parses the file and builds a
BrickState per entry (the loop body fills in connected := False when the
key is absent, which from_dict.getD false reproduces). The except
FileNotFoundError branch returns []; the except Exception branch catches
every other failure, including a KeyError raised partway through the
loop, and returns []. -/
def load_bricks : FileContent → List BrickState
  | .missing => []
  | .invalidJson => []
  | .nonList => []
  | .list es =>
      match es.mapM BrickState.from_dict with
      | some bs => bs
      | none => []

/-- A Python exception as raised by the status path. -/
inductive PyError where
  | keyError (k : String)
  | jsonDecodeError
  deriving DecidableEq, Repr

/-- The fields of a parsed inbound status JSON object that the handler
looks at: each present or absent. -/
structure StatusDict where
  status : Option String
  message : Option String
  deriving DecidableEq, Repr

/-- An inbound payload string after UTF-8 decoding: either text that
json.loads rejects, or a parsed object. -/
inductive Payload where
  | invalid
  | dict (d : StatusDict)
  deriving DecidableEq, Repr

/-- The raw MQTT message bytes: either bytes whose UTF-8 decoding fails,
or decodable text carrying a payload. -/
inductive RawMsg where
  | undecodable
  | text (p : Payload)
  deriving DecidableEq, Repr

/-- controller.py lines 355-359: set_status_bar runs json.loads and then
indexes the status and message keys with no try/except; a parse failure
or missing key is an uncaught exception (the error branch); on success
the status bar shows status ++ "," ++ message. -/
def set_status_bar (p : Payload) : Except PyError String :=
  match p with
  | .invalid => .error .jsonDecodeError
  | .dict d =>
      match d.status with
      | none => .error (.keyError "status")
      | some st =>
          match d.message with
          | none => .error (.keyError "message")
          | some msg => .ok (st ++ "," ++ msg)

/-- mqtt_handler.py lines 50-59: on_message decodes the payload bytes and
emits the text on the message_received signal, which is connected to the
listener set_status_bar; the try/except wraps only this byte decoding, so
an undecodable payload is logged and dropped (none) while every decodable
payload is forwarded to the listener (some). -/
def on_message (m : RawMsg) : Option Payload :=
  match m with
  | .undecodable => none
  | .text p => some p

/-- The numeric value of an ASCII digit character, none otherwise. -/
def digitVal? (c : Char) : Option Nat :=
  if 48 ≤ c.toNat ∧ c.toNat ≤ 57 then some (c.toNat - 48) else none

/-- A nonempty all-digit character list read as a decimal number. -/
def digitsToNat? (cs : List Char) : Option Nat :=
  match cs with
  | [] => none
  | _ =>
    cs.foldl (fun acc c => acc.bind fun n => (digitVal? c).map fun d => n * 10 + d)
      (some 0)

/-- The Python builtin int() applied to a string: an optional sign
followed by decimal digits, none (a ValueError) otherwise. -/
def pyInt? (s : String) : Option Int :=
  match s.data with
  | '-' :: cs => (digitsToNat? cs).map fun n => -(n : Int)
  | '+' :: cs => (digitsToNat? cs).map fun n => (n : Int)
  | cs => (digitsToNat? cs).map fun n => (n : Int)

/-- add_brick_dialog.py lines 31-37: get_brick passes the four dialog
texts positionally as BrickState(name_text, controller_text, mac_text,
int(port_text)) to the constructor whose positional order is (name, mac,
port, controller); int() failing to parse is an uncaught exception
(none). -/
def get_brick (nameText controllerText macText portText : String) :
    Option BrickState :=
  (pyInt? portText).map fun k =>
    { name := nameText
      mac := controllerText
      port := .str macText
      controller := .int k
      power := 0
      direction := "forward"
      running := false
      connected := false }

/-! Concrete states and entries used by the theorems below. -/

/-- A disconnected idle brick. -/
def discIdle : BrickState :=
  { name := "M1", mac := "AA:BB", port := .int 1, controller := .str "X",
    power := 0, direction := "forward", running := false, connected := false }

/-- A connected idle brick. -/
def connIdle : BrickState :=
  { name := "M1", mac := "AA:BB", port := .int 1, controller := .str "X",
    power := 0, direction := "forward", running := false, connected := true }

/-- A connected brick running backward. -/
def backBrick : BrickState :=
  { name := "M1", mac := "AA:BB", port := .int 1, controller := .str "X",
    power := 40, direction := "backward", running := true, connected := true }

/-- A second brick sharing the name of discIdle. -/
def dupBrick : BrickState :=
  { name := "M1", mac := "CC:DD", port := .int 2, controller := .str "Y",
    power := 0, direction := "forward", running := false, connected := false }

/-- A persisted entry that stores connected = true. -/
def persistedConnectedTrue : EntryDict :=
  { name := some "M1", mac := some "AA:BB", port := some (.int 1),
    controller := some (.str "X"), power := some 0, direction := some "forward",
    running := some false, connected := some true }

/-- The brick that loading persistedConnectedTrue produces. -/
def loadedM1 : BrickState :=
  { name := "M1", mac := "AA:BB", port := .int 1, controller := .str "X",
    power := 0, direction := "forward", running := false, connected := true }

/-- A persisted entry missing the required name field. -/
def badEntry : EntryDict :=
  { name := none, mac := some "AA:BB", port := some (.int 1),
    controller := some (.str "X"), power := none, direction := none,
    running := none, connected := none }

/-- The parsed inbound payload with a status field but no message field. -/
def statusOnly : Payload := .dict { status := some "ok", message := none }

/-! Claim theorems. -/

/-- Claim C1, counterexample: the claim that no transition ever produces a
state with connected = false and power > 0 fails on the SetPower preview
handler: from the disconnected idle state, on_slider_moved 50 yields
connected = false with power = 50 (the handler has no connected check; only
the front end disabling the slider prevents this). -/
theorem stateInv_broken_by_preview :
    stateInv discIdle ∧ ¬ stateInv (on_slider_moved 50 discIdle).1 := by
  decide

/-- Claim C1, amended: every transition except the SetPower preview
preserves the invariant connected = false implies power = 0 and
running = false; the preview preserves it only when the brick is
connected. -/
theorem stateInv_preserved_by_guarded_transitions
    (s : BrickState) (v : Int) (d : String) (h : stateInv s) :
    stateInv (connect_brick s).1 ∧ stateInv (disconnect_brick s).1 ∧
    stateInv (on_slider_released s).1 ∧ stateInv (set_direction d s).1 ∧
    stateInv (stop s).1 ∧
    (s.connected = true → stateInv (on_slider_moved v s).1) := by
  refine ⟨?_, ?_, ?_, ?_, ?_, ?_⟩ <;>
    simp_all [stateInv, connect_brick, disconnect_brick, on_slider_released,
      set_direction, stop, on_slider_moved]

/-- Claim C1, witness for the amended theorem at the disconnected idle
state. -/
theorem stateInv_preserved_witness :
    stateInv discIdle ∧
    (stateInv (connect_brick discIdle).1 ∧ stateInv (disconnect_brick discIdle).1 ∧
     stateInv (on_slider_released discIdle).1 ∧
     stateInv (set_direction "backward" discIdle).1 ∧
     stateInv (stop discIdle).1 ∧
     (discIdle.connected = true → stateInv (on_slider_moved 50 discIdle).1)) :=
  ⟨by decide, stateInv_preserved_by_guarded_transitions discIdle 50 "backward" (by decide)⟩

/-- Claim C2, counterexample: the SetPower handler does not clamp: applied
with 150 to a connected brick it stores power = 150, outside [0, 100]. -/
theorem on_slider_moved_unclamped :
    (on_slider_moved 150 connIdle).1.power = 150 ∧
    ¬ ((on_slider_moved 150 connIdle).1.power ≤ 100) := by
  decide

/-- Claim C2, amended: moving the slider to v on a connected brick stores
the value clamped to [0, 100] by the widget range configured at
controller.py line 109 (not by the handler), and releasing the slider
dispatches a command whose power field is exactly that clamped value. -/
theorem slider_power_clamped_and_committed
    (v : Int) (s : BrickState) (h : s.connected = true) :
    (0 ≤ (slider_set_value v s).power ∧ (slider_set_value v s).power ≤ 100) ∧
    (slider_set_value v s).power = sliderClamp v ∧
    (on_slider_released (slider_set_value v s)).2.map Cmd.power
      = some (sliderClamp v) := by
  refine ⟨⟨le_max_left 0 _, max_le (by norm_num) (min_le_left _ _)⟩, rfl, ?_⟩
  simp [slider_set_value, on_slider_moved, sliderClamp, on_slider_released,
    send_command]

/-- Claim C2, witness for the amended theorem at value 55 on the connected
idle brick. -/
theorem slider_power_clamped_witness :
    connIdle.connected = true ∧
    ((0 ≤ (slider_set_value 55 connIdle).power ∧
      (slider_set_value 55 connIdle).power ≤ 100) ∧
     (slider_set_value 55 connIdle).power = sliderClamp 55 ∧
     (on_slider_released (slider_set_value 55 connIdle)).2.map Cmd.power
       = some (sliderClamp 55)) :=
  ⟨by decide, slider_power_clamped_and_committed 55 connIdle (by decide)⟩

/-- Claim C3, counterexample: invoking SetDirection on a disconnected
brick does not leave the state unchanged and does not suppress dispatch:
it mutates the direction and produces a command; no IllegalTransition
condition exists in the code. -/
theorem set_direction_mutates_when_disconnected :
    (set_direction "backward" discIdle).1 ≠ discIdle ∧
    (set_direction "backward" discIdle).2 ≠ none := by
  decide

/-- Claim C3, amended: the connected-only handlers perform no connected
check: on a disconnected brick, SetDirection stores the direction and
dispatches, Stop forces power 0 and running false and dispatches,
CommitPower dispatches, and the SetPower preview stores the value; none of
them reports an IllegalTransition condition. -/
theorem disconnected_transitions_unguarded
    (s : BrickState) (d : String) (v : Int) (h : s.connected = false) :
    (set_direction d s).1 = { s with direction := d } ∧
    ((set_direction d s).2).isSome = true ∧
    (stop s).1 = { s with power := 0, running := false } ∧
    ((stop s).2).isSome = true ∧
    ((on_slider_released s).2).isSome = true ∧
    (on_slider_moved v s).1.power = v :=
  ⟨rfl, rfl, rfl, rfl, rfl, rfl⟩

/-- Claim C3, witness for the amended theorem at the disconnected idle
state. -/
theorem disconnected_transitions_unguarded_witness :
    discIdle.connected = false ∧
    ((set_direction "backward" discIdle).1 = { discIdle with direction := "backward" } ∧
     ((set_direction "backward" discIdle).2).isSome = true ∧
     (stop discIdle).1 = { discIdle with power := 0, running := false } ∧
     ((stop discIdle).2).isSome = true ∧
     ((on_slider_released discIdle).2).isSome = true ∧
     (on_slider_moved 50 discIdle).1.power = 50) :=
  ⟨by decide, disconnected_transitions_unguarded discIdle "backward" 50 (by decide)⟩

/-- Claim C4, counterexample: adding a brick whose name equals an existing
name does not fail and does not leave the store unchanged: the store grows
and afterwards holds two records named M1. -/
theorem add_brick_duplicate_not_rejected :
    add_brick [discIdle] dupBrick ≠ [discIdle] ∧
    (add_brick [discIdle] dupBrick).countP (fun b => b.name == "M1") = 2 := by
  decide

/-- Claim C4, amended: add_brick never checks names: for every store
holding a record with the new name, the add appends anyway, growing the
store by one and leaving at least two records with that name; no
DuplicateName condition exists in the code. -/
theorem add_brick_appends_duplicate
    (bricks : List BrickState) (nb : BrickState)
    (h : ∃ b ∈ bricks, b.name = nb.name) :
    (add_brick bricks nb).length = bricks.length + 1 ∧
    2 ≤ (add_brick bricks nb).countP (fun b => b.name == nb.name) := by
  constructor
  · simp [add_brick]
  · have h1 : 0 < bricks.countP (fun b => b.name == nb.name) := by
      rw [List.countP_pos_iff]
      obtain ⟨b, hb, he⟩ := h
      exact ⟨b, hb, by simp [he]⟩
    have h2 : (add_brick bricks nb).countP (fun b => b.name == nb.name)
        = bricks.countP (fun b => b.name == nb.name) + 1 := by
      simp [add_brick, List.countP_append]
    rw [h2]
    omega

/-- Claim C4, witness for the amended theorem on a one-brick store and a
same-named record. -/
theorem add_brick_appends_duplicate_witness :
    (∃ b ∈ [discIdle], b.name = dupBrick.name) ∧
    ((add_brick [discIdle] dupBrick).length = [discIdle].length + 1 ∧
     2 ≤ (add_brick [discIdle] dupBrick).countP (fun b => b.name == dupBrick.name)) :=
  ⟨by decide, add_brick_appends_duplicate [discIdle] dupBrick (by decide)⟩

/-- Claim C5, counterexample: for the inbound payload with status ok and
no message field, the receive callback does forward the payload to the
listener (the callback fires), and the listener itself fails with an
uncaught KeyError instead of a logged-and-dropped MalformedStatus. -/
theorem status_only_payload_fires_listener :
    on_message (.text statusOnly) = some statusOnly ∧
    set_status_bar statusOnly = .error (.keyError "message") :=
  ⟨rfl, rfl⟩

/-- Claim C5, amended: for every inbound payload that is not valid JSON
or whose parsed object lacks the status or the message field, the receive
callback forwards it to the listener (the callback fires), and the
listener then fails with an uncaught error (json.JSONDecodeError or
KeyError); every decodable payload q is forwarded, and only payloads
whose bytes fail UTF-8 decoding are caught, logged and dropped inside the
receive callback. -/
theorem malformed_payload_reaches_listener
    (p q : Payload)
    (h : p = Payload.invalid ∨
      ∃ d, p = Payload.dict d ∧ (d.status = none ∨ d.message = none)) :
    on_message (.text p) = some p ∧
    (∃ e, set_status_bar p = Except.error e) ∧
    on_message (.text q) = some q ∧
    on_message .undecodable = none := by
  rcases h with rfl | ⟨d, rfl, hd⟩
  · exact ⟨rfl, ⟨.jsonDecodeError, rfl⟩, rfl, rfl⟩
  · obtain ⟨st, msg⟩ := d
    refine ⟨rfl, ?_, rfl, rfl⟩
    rcases hd with h1 | h2
    · subst h1
      exact ⟨.keyError "status", rfl⟩
    · subst h2
      cases st with
      | none => exact ⟨.keyError "status", rfl⟩
      | some s => exact ⟨.keyError "message", rfl⟩

/-- Claim C5, witness for the amended theorem at the status-only payload,
with a well-formed payload as the forwarded bystander. -/
theorem malformed_payload_reaches_listener_witness :
    (statusOnly = Payload.invalid ∨
     ∃ d, statusOnly = Payload.dict d ∧ (d.status = none ∨ d.message = none)) ∧
    (on_message (.text statusOnly) = some statusOnly ∧
     (∃ e, set_status_bar statusOnly = Except.error e) ∧
     on_message (.text (.dict (StatusDict.mk (some "ok") (some "done"))))
       = some (.dict (StatusDict.mk (some "ok") (some "done"))) ∧
     on_message .undecodable = none) :=
  ⟨Or.inr ⟨StatusDict.mk (some "ok") none, rfl, Or.inr rfl⟩,
   malformed_payload_reaches_listener statusOnly
     (.dict (StatusDict.mk (some "ok") (some "done")))
     (Or.inr ⟨StatusDict.mk (some "ok") none, rfl, Or.inr rfl⟩)⟩

/-- Claim C6, amended: for every prior state, Disconnect yields power 0,
running false, connected false, and dispatches a command with disconnect
true, power 0, and direction equal to the prior direction (the code sends
the current direction; it does not reset it to forward). -/
theorem disconnect_state_and_command (s : BrickState) :
    ((disconnect_brick s).1.power = 0 ∧ (disconnect_brick s).1.running = false ∧
     (disconnect_brick s).1.connected = false) ∧
    (disconnect_brick s).2 = some
      { controller := s.controller, mac := s.mac, port := s.port,
        power := 0, direction := s.direction, disconnect := true } :=
  ⟨⟨rfl, rfl, rfl⟩, rfl⟩

/-- Claim C6, counterexample: disconnecting a brick whose direction is
backward dispatches a command whose direction field is backward, not the
default forward claimed by the spec. -/
theorem disconnect_keeps_direction :
    (disconnect_brick backBrick).2.map Cmd.direction = some "backward" ∧
    (disconnect_brick backBrick).2.map Cmd.direction ≠ some "forward" := by
  decide

/-- Claim C7, counterexample: loading a store whose entry persists
connected = true yields a brick with connected = true: load does not reset
the field. -/
theorem load_keeps_persisted_connected_true :
    (load_bricks (.list [persistedConnectedTrue])).map BrickState.connected = [true] ∧
    ¬ (∀ b ∈ load_bricks (.list [persistedConnectedTrue]), b.connected = false) := by
  decide

/-- Claim C7, amended: loading defaults connected to false only when the
persisted entry lacks the field, otherwise it keeps the persisted value;
the reset of every brick to connected = false happens afterwards in the
controller list refresh. -/
theorem load_connected_default_and_refresh_reset
    (e : EntryDict) (b : BrickState) (bs : List BrickState)
    (h : BrickState.from_dict e = some b) :
    b.connected = e.connected.getD false ∧
    (refresh_brick_list bs).all (fun x => !x.connected) = true := by
  constructor
  · unfold BrickState.from_dict at h
    split at h
    · cases h
      rfl
    · cases h
  · simp [refresh_brick_list, List.all_map]

/-- Claim C7, witness for the amended theorem at the entry persisting
connected = true. -/
theorem load_connected_default_witness :
    BrickState.from_dict persistedConnectedTrue = some loadedM1 ∧
    (loadedM1.connected = persistedConnectedTrue.connected.getD false ∧
     (refresh_brick_list [loadedM1]).all (fun x => !x.connected) = true) :=
  ⟨by decide, load_connected_default_and_refresh_reset persistedConnectedTrue loadedM1
      [loadedM1] (by decide)⟩

/-- Claim C8, confirmed: loading when the backing file is missing returns
the empty brick list (the FileNotFoundError branch), raising nothing. -/
theorem load_bricks_missing_returns_empty :
    load_bricks FileContent.missing = [] :=
  rfl

/-- Claim C9, confirmed: get_brick passes the dialog texts positionally in
the order name, controller, mac, int(port) to a constructor expecting
name, mac, port, controller, so the built record has mac equal to the
controller text, port equal to the MAC text, and controller equal to the
integer parsed from the port text. -/
theorem get_brick_swapped_fields
    (n c m p : String) (k : Int) (h : pyInt? p = some k) :
    get_brick n c m p = some
      { name := n, mac := c, port := .str m, controller := .int k,
        power := 0, direction := "forward", running := false,
        connected := false } := by
  simp [get_brick, h]

/-- Claim C9, witness at the dialog inputs name M1, controller X, MAC
AA:BB, port text 1. -/
theorem get_brick_swapped_fields_witness :
    pyInt? "1" = some 1 ∧
    get_brick "M1" "X" "AA:BB" "1" = some
      { name := "M1", mac := "X", port := .str "AA:BB", controller := .int 1,
        power := 0, direction := "forward", running := false,
        connected := false } :=
  ⟨by decide, get_brick_swapped_fields "M1" "X" "AA:BB" "1" 1 (by decide)⟩

/-- Claim C10, confirmed: load_bricks is total on failures: a missing
file, invalid JSON, a non-list top level, and an entry list on which
building any brick fails (a missing required field) all return the empty
list through the except branches. -/
theorem load_bricks_total_on_failure :
    load_bricks .missing = [] ∧ load_bricks .invalidJson = [] ∧
    load_bricks .nonList = [] ∧
    ∀ es : List EntryDict, es.mapM BrickState.from_dict = none →
      load_bricks (.list es) = [] := by
  refine ⟨rfl, rfl, rfl, fun es h => ?_⟩
  unfold List.mapM at h
  simp [load_bricks, h]

/-- Claim C10, witness at a one-entry list whose entry lacks the required
name field. -/
theorem load_bricks_total_on_failure_witness :
    ([badEntry].mapM BrickState.from_dict = none) ∧
    load_bricks (.list [badEntry]) = [] :=
  ⟨by decide, load_bricks_total_on_failure.2.2.2 [badEntry] (by decide)⟩

end BrickCommander
